import Mathlib

set_option autoImplicit false

/-!
Verification development for `piwikapi/tracking.py` (class `PiwikTracker`).

The Python class is shallowly embedded as a Lean structure `PiwikTracker`
together with one Lean function per method.  Conventions used throughout:

* Python `dict` objects are insertion-ordered association lists
  (`List (k × v)`); assignment to an existing key replaces the value in
  place, assignment to a fresh key appends (`pyDictSet`).
* A Python attribute that may hold `None` is an `Option`.  The `referer`
  attribute is special: it is never created by `__init__` (it is assigned
  only by `set_url_referer`), so it is modelled as
  `Option (Option String)` where the outer `none` means "attribute does
  not exist" (reading it raises `AttributeError`) and the inner option is
  the stored value.
* Exceptions are modelled with `Except PyErr`.  Methods that mutate state
  before an exception escapes return the post-mutation state alongside
  the `Except` result.
* `random.randint(0, 99999)` and the transport collaborator are passed in
  as explicit arguments (`rand : Nat`, `transport : TransportFn`): each
  call site of the Python code draws a fresh `rand`.
* `json.dumps` applied to a custom-variable mapping or to the e-commerce
  item list is modelled by injective constructors (`QVal.jsonCVar`,
  `QVal.jsonItems`) carrying the encoded structure; the concrete JSON
  text is irrelevant to every property proved here.
* Monetary amounts (Python floats, with `False` as the default of the
  optional ones) are modelled as `Rat`, with `0` playing the role of the
  falsy defaults: Python truthiness of `False` and `0.0` coincide.
-/

/-- Python exception values raised by the tracker code. -/
inductive PyErr where
  /-- `piwikapi.exceptions.InvalidParameter` -/
  | invalidParameter (msg : String)
  /-- `piwikapi.exceptions.ConfigurationError` -/
  | configurationError (msg : String)
  /-- built-in `AttributeError` (read of a non-existing attribute) -/
  | attributeError (attr : String)
  /-- built-in `NameError` (read of an undefined variable) -/
  | nameError (msg : String)
  /-- built-in `TypeError` -/
  | typeError (msg : String)
deriving DecidableEq, Repr

/-- Hour/minute/second triple of the `local_time` override (a
`datetime.datetime`; only these three fields are ever read). -/
structure TimeOfDay where
  hour : Int
  minute : Int
  second : Int
deriving DecidableEq, Repr

/-- The four-field dict built by `set_event_tracking`. -/
structure EventTracking where
  category : String
  action : String
  name : String
  value : String
deriving DecidableEq, Repr

/-- The four-field dict of attribution info (`_rcn`/`_rck`/`_refts`/`_ref`);
the referral datetime is kept as its floored unix timestamp, the only form
in which `_get_request` uses it. -/
structure AttributionInfo where
  campaign_name : String
  campaign_keyword : String
  referral_timestamp : Int
  referral_url : String
deriving DecidableEq, Repr

/-- The 5-tuple stored per SKU by `add_ecommerce_item`; `none` models the
`False` defaults of the optional arguments. -/
structure EcItem where
  sku : String
  name : Option String
  category : Option String
  price : Option Rat
  quantity : Int
deriving DecidableEq, Repr

/-- Values stored in a custom-variable slot: `set_custom_variable` stores
strings, `set_ecommerce_view` additionally stores a numeric price. -/
inductive CVal where
  | s (v : String)
  | num (v : Rat)
deriving DecidableEq, Repr

/-- `user_id` may be a string or an int (`set_user_id` accepts both). -/
inductive UserIdV where
  | str (s : String)
  | int (n : Int)
deriving DecidableEq, Repr

/-- Values appearing in the query-variable dict built by `_get_request`. -/
inductive QVal where
  | s (v : String)
  | i (v : Int)
  | num (v : Rat)
  /-- Python `None` stored as a dict value -/
  | pyNone
  /-- `json.dumps` of a custom-variable mapping -/
  | jsonCVar (m : List (Int × (String × CVal)))
  /-- `json.dumps(list(ecommerce_items.values()))` -/
  | jsonItems (l : List EcItem)
deriving DecidableEq, Repr

/-- Insertion-ordered Python dict with string keys (the query-vars dict). -/
abbrev QDict := List (String × QVal)

/-- Python `d[k] = v`: replace in place when the key exists, else append.
(Stated recursively; it agrees with CPython on every key-duplicate-free
list, and every dict in this development is built by `pyDictSet` from
`[]`, hence duplicate-free.) -/
def pyDictSet {α β : Type} [DecidableEq α] (d : List (α × β)) (k : α) (v : β) :
    List (α × β) :=
  match d with
  | [] => [(k, v)]
  | p :: rest => if p.1 = k then (k, v) :: rest else p :: pyDictSet rest k v

/-- Python `d.get(k)` / `d[k]` lookup (first occurrence). -/
def pyDictGet {α β : Type} [DecidableEq α] (d : List (α × β)) (k : α) :
    Option β :=
  match d with
  | [] => none
  | p :: rest => if p.1 = k then some p.2 else pyDictGet rest k

/-- `KNOWN_PLUGINS`: plugin name to short query-parameter code. -/
def KNOWN_PLUGINS : List (String × String) :=
  [("flash", "fla"), ("java", "java"), ("director", "dir"),
   ("quick_time", "qt"), ("real_player", "realp"), ("pdf", "pdf"),
   ("windows_media", "wma"), ("gears", "gears"), ("silverlight", "ag")]

/-- `VERSION`, the Piwik API version constant. -/
def VERSION : Int := 1

/-- `LENGTH_VISITOR_ID`. -/
def LENGTH_VISITOR_ID : Nat := 16

/-- The mutable state of one `PiwikTracker` instance, one field per
instance attribute assigned in `__init__` (plus `referer`, which
`__init__` never assigns: the outer `none` means the attribute is
missing and reading it raises `AttributeError`). -/
structure PiwikTracker where
  action_name : Option String
  ecommerce_items : List (String × EcItem)
  id_site : Int
  api_url : Option String
  request_cookies : Option (List (String × String))
  user_agent : Option String
  accept_language : Option String
  ip : Option String
  token_auth : Option String
  forced_datetime : Option Int
  local_time : Option TimeOfDay
  page_url : Option String
  cookie_support : Bool
  has_cookies : Bool
  width : Option Int
  height : Option Int
  visitor_id : Option String
  debug_append_url : Bool
  event_custom_var : List (Int × (String × CVal))
  page_custom_var : List (Int × (String × CVal))
  visitor_custom_var : List (Int × (String × CVal))
  event_tracking : Option EventTracking
  dimensions : List (String × String)
  plugins : List (String × Int)
  attribution_info : Option AttributionInfo
  user_id : Option UserIdV
  send_image : Option Bool
  id_goal : Option Int
  revenue : Option Rat
  debug : Bool
  ssl_verify : Bool
  referer : Option (Option String)
deriving DecidableEq, Repr

namespace PiwikTracker

/-- `__init__(id_site)`: every field as assigned by the constructor.  The
empty dicts (`event_custom_var` &c.) are empty lists; `event_tracking`
and `attribution_info` start as empty dicts, represented as `none` (both
are only ever tested for emptiness or fully populated by their setter).
`referer` is NOT assigned (outer `none` = attribute missing). -/
def init (id_site : Int) : PiwikTracker where
  action_name := none
  ecommerce_items := []
  id_site := id_site
  api_url := none
  request_cookies := none
  user_agent := none
  accept_language := none
  ip := none
  token_auth := none
  forced_datetime := none
  local_time := none
  page_url := none
  cookie_support := true
  has_cookies := false
  width := none
  height := none
  visitor_id := none
  debug_append_url := false
  event_custom_var := []
  page_custom_var := []
  visitor_custom_var := []
  event_tracking := none
  dimensions := []
  plugins := []
  attribution_info := none
  user_id := none
  send_image := some false
  id_goal := none
  revenue := none
  debug := false
  ssl_verify := true
  referer := none

/-- `set_local_time(datetime)` -/
def set_local_time (t : PiwikTracker) (d : TimeOfDay) : PiwikTracker :=
  { t with local_time := some d }

/-- `set_token_auth(token_auth)` -/
def set_token_auth (t : PiwikTracker) (token : String) : PiwikTracker :=
  { t with token_auth := some token }

/-- `set_api_url(api_url)` -/
def set_api_url (t : PiwikTracker) (u : String) : PiwikTracker :=
  { t with api_url := some u }

/-- `set_ip(ip)` -/
def set_ip (t : PiwikTracker) (ip : String) : PiwikTracker :=
  { t with ip := some ip }

/-- `set_browser_has_cookies()` -/
def set_browser_has_cookies (t : PiwikTracker) : PiwikTracker :=
  { t with has_cookies := true }

/-- `set_browser_language(language)` -/
def set_browser_language (t : PiwikTracker) (lang : String) : PiwikTracker :=
  { t with accept_language := some lang }

/-- `set_user_agent(user_agent)` -/
def set_user_agent (t : PiwikTracker) (ua : String) : PiwikTracker :=
  { t with user_agent := some ua }

/-- `set_resolution(width, height)` -/
def set_resolution (t : PiwikTracker) (w h : Int) : PiwikTracker :=
  { t with width := some w, height := some h }

/-- `build_random_visitor_id()`: md5-hex of OS randomness, truncated to
`LENGTH_VISITOR_ID`; the hex digest is taken as an oracle argument. -/
def build_random_visitor_id (randomHex : String) : String :=
  randomHex.take LENGTH_VISITOR_ID

/-- `set_new_visitor_id()`; the md5 hex digest drawn inside
`build_random_visitor_id` is the oracle argument. -/
def set_new_visitor_id (t : PiwikTracker) (randomHex : String) : PiwikTracker :=
  { t with visitor_id := some (build_random_visitor_id randomHex) }

/-- `set_visitor_id(visitor_id)`: rejects any id whose length differs
from `LENGTH_VISITOR_ID`, stores it otherwise. -/
def set_visitor_id (t : PiwikTracker) (visitor_id : String) :
    Except PyErr PiwikTracker :=
  if visitor_id.length ≠ LENGTH_VISITOR_ID then
    .error (.invalidParameter
      "set_visitor_id() expects a visitor ID of length 16")
  else
    .ok { t with visitor_id := some visitor_id }

/-- `set_user_id(user_id)`: the str-or-int type check is vacuous here
because `UserIdV` is exactly the accepted union. -/
def set_user_id (t : PiwikTracker) (u : UserIdV) : PiwikTracker :=
  { t with user_id := some u }

/-- `set_send_image_response(should_send)` -/
def set_send_image_response (t : PiwikTracker) (b : Bool) : PiwikTracker :=
  { t with send_image := some b }

/-- `set_debug(should_debug)` -/
def set_debug (t : PiwikTracker) (b : Bool) : PiwikTracker :=
  { t with debug := b }

/-- `set_url_referer(referer)`: the only method that creates the
`referer` attribute. -/
def set_url_referer (t : PiwikTracker) (r : Option String) : PiwikTracker :=
  { t with referer := some r }

/-- `set_url(url)` -/
def set_url (t : PiwikTracker) (u : String) : PiwikTracker :=
  { t with page_url := some u }

/-- `set_force_visit_date_time(datetime)` (kept as a unix timestamp). -/
def set_force_visit_date_time (t : PiwikTracker) (d : Int) : PiwikTracker :=
  { t with forced_datetime := some d }

/-- `set_request_cookie(cookies)` -/
def set_request_cookie (t : PiwikTracker) (c : List (String × String)) :
    PiwikTracker :=
  { t with request_cookies := some c }

/-- `disable_cookie_support()` -/
def disable_cookie_support (t : PiwikTracker) : PiwikTracker :=
  { t with cookie_support := false }

/-- `set_action_name(action_name)` -/
def set_action_name (t : PiwikTracker) (a : String) : PiwikTracker :=
  { t with action_name := some a }

/-- `set_event_tracking(category, action, name, value)` -/
def set_event_tracking (t : PiwikTracker) (category action nm value : String) :
    PiwikTracker :=
  { t with
    event_tracking :=
      some ({ category := category, action := action, name := nm,
              value := value } : EventTracking) }

/-- `set_ssl_verify(verify)` -/
def set_ssl_verify (t : PiwikTracker) (b : Bool) : PiwikTracker :=
  { t with ssl_verify := b }

/-- `set_custom_variable(id, name, value, scope)`.  The `id` type check
(line 779) is vacuous here since `id` is typed `Int`.  Crucially, line
786 of the source reads `elif scopr == u"event":` where `scopr` is an
undefined name, so evaluating the condition raises `NameError` for every
scope other than `"page"` (the first branch). -/
def set_custom_variable (t : PiwikTracker) (id : Int) (nm value : String)
    (scope : String) : Except PyErr PiwikTracker :=
  if scope = "page" then
    .ok { t with page_custom_var :=
            pyDictSet t.page_custom_var id (nm, CVal.s value) }
  else
    .error (.nameError "name scopr is not defined")

/-- `set_dimension(name, value)` -/
def set_dimension (t : PiwikTracker) (nm value : String) : PiwikTracker :=
  { t with dimensions := pyDictSet t.dimensions nm value }

/-- The loop body of `set_plugins`: validates one name at a time and
mutates `self.plugins` per accepted entry, so an unknown name later in
the argument list leaves the earlier entries already recorded. -/
def setPluginsLoop (t : PiwikTracker) :
    List (String × Int) → PiwikTracker × Except PyErr Bool
  | [] => (t, .ok true)
  | (plugin, version) :: rest =>
    match pyDictGet KNOWN_PLUGINS plugin with
    | none => (t, .error (.configurationError ("Unknown plugin " ++ plugin)))
    | some code =>
      setPluginsLoop { t with plugins := pyDictSet t.plugins code version } rest

/-- `set_plugins(**kwargs)`; `kwargs` keeps the keyword order.  Returns
the state as left by the (possibly interrupted) loop together with the
result. -/
def set_plugins (t : PiwikTracker) (kwargs : List (String × Int)) :
    PiwikTracker × Except PyErr Bool :=
  setPluginsLoop t kwargs

/-- `get_custom_variable(id, scope)` -/
def get_custom_variable (t : PiwikTracker) (id : Int) (scope : String) :
    Except PyErr (Option (String × CVal)) :=
  if scope = "visit" then .ok (pyDictGet t.visitor_custom_var id)
  else if scope = "event" then .ok (pyDictGet t.event_custom_var id)
  else if scope = "page" then .ok (pyDictGet t.page_custom_var id)
  else .error (.invalidParameter ("Bad scope: " ++ scope))

/-- `add_ecommerce_item(sku, name, category, price, quantity)` -/
def add_ecommerce_item (t : PiwikTracker) (sku : String)
    (nm category : Option String) (price : Option Rat) (quantity : Int) :
    PiwikTracker :=
  { t with
    ecommerce_items :=
      pyDictSet t.ecommerce_items sku
        ({ sku := sku, name := nm, category := category, price := price,
           quantity := quantity } : EcItem) }

/-- `set_track_goal(id_goal, revenue)` -/
def set_track_goal (t : PiwikTracker) (idGoal : Int) (rev : Option Rat) :
    PiwikTracker :=
  let t := { t with id_goal := some idGoal }
  match rev with
  | some r => { t with revenue := some r }
  | none => t

/-- Python truthiness of an optional string (`None` and `""` are falsy). -/
def optStrTruthy : Option String → Bool
  | none => false
  | some s => s ≠ ""

/-- Python truthiness of an optional number (`None`/`False` and `0` are
falsy). -/
def optRatTruthy : Option Rat → Bool
  | none => false
  | some q => q ≠ 0

/-- The `category` argument of `set_ecommerce_view`: a string or a list
of strings. -/
inductive EcCategory where
  | str (s : String)
  | list (l : List String)
deriving DecidableEq, Repr

/-- Truthiness of the `category` argument. -/
def ecCategoryTruthy : Option EcCategory → Bool
  | none => false
  | some (.str s) => s ≠ ""
  | some (.list l) => l ≠ []

/-- `json.dumps` of a list of strings (escaping omitted: never inspected
by any property below). -/
def jsonStringList (l : List String) : String :=
  "[" ++ String.intercalate ", " (l.map (fun s => "\"" ++ s ++ "\"")) ++ "]"

/-- `set_ecommerce_view(sku, name, category, price)`: writes page-scope
custom-variable slots 5/2/3/4. -/
def set_ecommerce_view (t : PiwikTracker) (sku nm : Option String)
    (category : Option EcCategory) (price : Option Rat) : PiwikTracker :=
  let catStr : String :=
    if ecCategoryTruthy category then
      match category with
      | some (.str s) => s
      | some (.list l) => jsonStringList l
      | none => ""
    else ""
  let t := { t with page_custom_var :=
               pyDictSet t.page_custom_var 5 ("_pkc", CVal.s catStr) }
  let t :=
    if optRatTruthy price then
      { t with page_custom_var :=
          pyDictSet t.page_custom_var 2 ("_pkp", CVal.num (price.getD 0)) }
    else t
  if optStrTruthy sku && optStrTruthy nm then
    let t := { t with page_custom_var :=
                 pyDictSet t.page_custom_var 3 ("_pks", CVal.s (sku.getD "")) }
    { t with page_custom_var :=
        pyDictSet t.page_custom_var 4 ("_pkn", CVal.s (nm.getD "")) }
  else t

end PiwikTracker

/-- `str(user_id)` (`to_string`). -/
def userIdToString : UserIdV → String
  | .str s => s
  | .int n => toString n

/-- A dict value holding a possibly-`None` Python string. -/
def optStrVal : Option String → QVal
  | none => QVal.pyNone
  | some s => QVal.s s

namespace PiwikTracker

/-- The body of `_get_request(id_site)` (lines 392-456) once the
`referer` attribute is known to exist with value `referer`.  Each `let`
re-binding mirrors one assignment / guarded block of the source, in
source order.  Note the source bug on line 421: the `e_cvar` guard tests
`len(self.page_custom_var)`, not the event mapping. -/
def _get_request_body (t : PiwikTracker) (id_site : Int)
    (referer : Option String) (rand : Nat) : QDict :=
  let qv : QDict := pyDictSet [] "idsite" (QVal.i id_site)
  let qv := pyDictSet qv "rec" (QVal.s "1")
  let qv := pyDictSet qv "url" (optStrVal t.page_url)
  let qv := pyDictSet qv "apiv" (QVal.i VERSION)
  let qv := pyDictSet qv "rand" (QVal.i rand)
  let qv := match referer with
            | some r => pyDictSet qv "referer" (QVal.s r)
            | none => qv
  let qv := match t.action_name with
            | some a => pyDictSet qv "action_name" (QVal.s a)
            | none => qv
  let qv := match t.local_time with
            | some lt =>
              pyDictSet (pyDictSet (pyDictSet qv "h" (QVal.i lt.hour))
                "m" (QVal.i lt.minute)) "s" (QVal.i lt.second)
            | none => qv
  let qv := match t.ip with
            | some ip => pyDictSet qv "cip" (QVal.s ip)
            | none => qv
  let qv := match t.token_auth with
            | some ta => pyDictSet qv "token_auth" (QVal.s ta)
            | none => qv
  let qv := if t.has_cookies then pyDictSet qv "cookie" (QVal.i 1) else qv
  let qv := match t.width, t.height with
            | some w, some h =>
              pyDictSet qv "res" (QVal.s (toString w ++ "x" ++ toString h))
            | _, _ => qv
  let qv := match t.visitor_id with
            | some vid =>
              pyDictSet (pyDictSet qv "cid" (QVal.s vid)) "_id" (QVal.s vid)
            | none => qv
  let qv := match t.user_id with
            | some u => pyDictSet qv "uid" (QVal.s (userIdToString u))
            | none => qv
  let qv := match t.send_image with
            | some b => pyDictSet qv "send_image" (QVal.s (if b then "1" else "0"))
            | none => qv
  let qv := if t.page_custom_var.length > 0 then
              pyDictSet qv "e_cvar" (QVal.jsonCVar t.event_custom_var)
            else qv
  let qv := if t.page_custom_var.length > 0 then
              pyDictSet qv "cvar" (QVal.jsonCVar t.page_custom_var)
            else qv
  let qv := if t.visitor_custom_var.length > 0 then
              pyDictSet qv "_cvar" (QVal.jsonCVar t.visitor_custom_var)
            else qv
  let qv := match t.event_tracking with
            | some et =>
              pyDictSet (pyDictSet (pyDictSet (pyDictSet qv
                "e_c" (QVal.s et.category)) "e_a" (QVal.s et.action))
                "e_n" (QVal.s et.name)) "e_v" (QVal.s et.value)
            | none => qv
  let qv := t.dimensions.foldl (fun d p => pyDictSet d p.1 (QVal.s p.2)) qv
  let qv := t.plugins.foldl (fun d p => pyDictSet d p.1 (QVal.i p.2)) qv
  let qv := match t.attribution_info with
            | some ai =>
              pyDictSet (pyDictSet (pyDictSet (pyDictSet qv
                "_rcn" (QVal.s ai.campaign_name))
                "_rck" (QVal.s ai.campaign_keyword))
                "_refts" (QVal.i ai.referral_timestamp))
                "_ref" (QVal.s ai.referral_url)
            | none => qv
  let qv := match t.id_goal with
            | some g =>
              let qv := pyDictSet qv "idgoal" (QVal.i g)
              match t.revenue with
              | some r => pyDictSet qv "revenue" (QVal.num r)
              | none => qv
            | none => qv
  let qv := if t.debug then pyDictSet qv "debug" (QVal.s "1") else qv
  qv

/-- `_get_request(id_site)`.  Line 398 reads `self.referer`, an attribute
that `__init__` never creates, so the method raises `AttributeError`
whenever `set_url_referer` has not been called.  (The five assignments of
lines 392-397 only build the local dict, which is discarded when the
exception escapes, so hoisting the attribute read is observationally
equivalent.) -/
def _get_request (t : PiwikTracker) (id_site : Int) (rand : Nat) :
    Except PyErr QDict :=
  match t.referer with
  | none => .error (.attributeError "referer")
  | some r => .ok (t._get_request_body id_site r rand)

end PiwikTracker

/-- The `params` argument handed to the `requests` transport: `execute`
passes the dict returned by `_get_request`, the per-action paths would
pass a string. -/
inductive ReqParams where
  | dict (d : QDict)
  | str (s : String)
deriving DecidableEq, Repr

/-- One GET performed by the transport collaborator. -/
structure TransportCall where
  url : String
  params : ReqParams
  headers : List (String × String)
  cookies : List (String × String)
  verify : Bool
deriving DecidableEq, Repr

/-- The transport response (`status_code`, `content`, `text`). -/
structure HttpResponse where
  status : Nat
  content : String
  text : String
deriving DecidableEq, Repr

/-- The dict returned by `_send_request` (lines 749-755). -/
structure SendResult where
  body_bytes : String
  body_str : String
  status : Nat
  ok : Bool
  error : Bool
deriving DecidableEq, Repr

/-- The transport collaborator: a pure function from the prepared request
to the HTTP response.  Statements quantify over it; a result that is
independent of it witnesses that no network round-trip happened. -/
def TransportFn : Type := TransportCall → HttpResponse

/-- Classification of the response (lines 747-755): `200`/`204` are ok,
everything else is an error returned as data, never raised. -/
def classifyResponse (r : HttpResponse) : SendResult where
  body_bytes := r.content
  body_str := r.text
  status := r.status
  ok := r.status == 200 || r.status == 204
  error := !(r.status == 200 || r.status == 204)

namespace PiwikTracker

/-- The request headers built by `_send_request` (lines 719-722). -/
def buildHeaders (t : PiwikTracker) : List (String × String) :=
  let hs : List (String × String) := []
  let hs := match t.user_agent with
            | some ua => hs ++ [("User-Agent", ua)]
            | none => hs
  match t.accept_language with
  | some al => hs ++ [("Accept-Language", al)]
  | none => hs

/-- The request cookies built by `_send_request` (lines 723-728). -/
def buildCookies (t : PiwikTracker) : List (String × String) :=
  if t.cookie_support then
    match t.request_cookies with
    | some cs => if cs.length > 0 then cs else []
    | none => []
  else []

/-- `_send_request(query_vars)`: raises `ConfigurationError` when the API
URL is unset (line 715-716, before the request object is even built),
otherwise performs exactly one transport call and returns the classified
response. -/
def _send_request (t : PiwikTracker) (query_vars : ReqParams)
    (transport : TransportFn) : Except PyErr SendResult :=
  match t.api_url with
  | none => .error (.configurationError "API URL not set")
  | some u =>
    .ok (classifyResponse (transport
      { url := u, params := query_vars, headers := t.buildHeaders,
        cookies := t.buildCookies, verify := t.ssl_verify }))

/-- `execute()`: serializes and hands the resulting dict straight to
`_send_request`. -/
def execute (t : PiwikTracker) (rand : Nat) (transport : TransportFn) :
    Except PyErr SendResult :=
  match t._get_request t.id_site rand with
  | .error e => .error e
  | .ok qv => t._send_request (.dict qv) transport

/-- The Python `TypeError` raised by `url += u"&%s" % ...` when `url` is
the dict returned by `_get_request` (e.g. line 466). -/
def dictPlusStrTypeError : PyErr :=
  .typeError "unsupported operand type(s) for +=: dict and str"

/-- `__get_url_track_action(action_url, action_type)` (lines 458-467):
`url` is a dict, so `url += ...` raises `TypeError` right after the
(successful) serialization. -/
def __get_url_track_action (t : PiwikTracker) (_action_url _action_type : String)
    (rand : Nat) : Except PyErr String :=
  match t._get_request t.id_site rand with
  | .error e => .error e
  | .ok _qv => .error dictPlusStrTypeError

/-- `__get_url_track_site_search(search, search_cat, search_count)`
(lines 469-492): same `url += ...` on a dict. -/
def __get_url_track_site_search (t : PiwikTracker) (_search : String)
    (_search_cat : Option String) (_search_count : Option Int)
    (rand : Nat) : Except PyErr String :=
  match t._get_request t.id_site rand with
  | .error e => .error e
  | .ok _qv => .error dictPlusStrTypeError

/-- `do_track_action(action_url, action_type)` (lines 637-651): validates
the action type first, then builds the URL (which raises), and would only
then call `_send_request`. -/
def do_track_action (t : PiwikTracker) (action_url action_type : String)
    (rand : Nat) (transport : TransportFn) : Except PyErr SendResult :=
  if action_type ≠ "download" ∧ action_type ≠ "link" then
    .error (.invalidParameter ("Illegal action parameter " ++ action_type))
  else
    match t.__get_url_track_action action_url action_type rand with
    | .error e => .error e
    | .ok url => t._send_request (.str url) transport

/-- `do_track_site_search(search, search_cat, search_count)`
(lines 653-667). -/
def do_track_site_search (t : PiwikTracker) (search : String)
    (search_cat : Option String) (search_count : Option Int)
    (rand : Nat) (transport : TransportFn) : Except PyErr SendResult :=
  match t.__get_url_track_site_search search search_cat search_count rand with
  | .error e => .error e
  | .ok url => t._send_request (.str url) transport

/-- The `args` dict of `__get_url_track_ecommerce` (lines 933-948):
`idgoal=0`, `revenue=grand_total`, the four truthiness-guarded amounts,
and `ec_items` (the SKU-stripped value list) when items are present. -/
def ecommerceArgs (t : PiwikTracker)
    (grand_total sub_total tax shipping discount : Rat) : QDict :=
  let args : QDict := pyDictSet [] "idgoal" (QVal.i 0)
  let args := pyDictSet args "revenue" (QVal.num grand_total)
  let args := if sub_total ≠ 0 then pyDictSet args "ec_st" (QVal.num sub_total)
              else args
  let args := if tax ≠ 0 then pyDictSet args "ec_tx" (QVal.num tax) else args
  let args := if shipping ≠ 0 then pyDictSet args "ec_sh" (QVal.num shipping)
              else args
  let args := if discount ≠ 0 then pyDictSet args "ec_dt" (QVal.num discount)
              else args
  if t.ecommerce_items.length > 0 then
    pyDictSet args "ec_items" (QVal.jsonItems (t.ecommerce_items.map Prod.snd))
  else args

/-- `__get_url_track_ecommerce(grand_total, ...)` (lines 903-951).
Execution order is significant: `_get_request` runs first (and its
`AttributeError` escapes with the items untouched); otherwise the `args`
dict is built, `self.ecommerce_items.clear()` runs (line 949), and then
line 950 applies `+=` to the dict `url` and a string, raising
`TypeError` — with the cleared item list already persisted on `self`. -/
def __get_url_track_ecommerce (t : PiwikTracker)
    (grand_total sub_total tax shipping discount : Rat) (rand : Nat) :
    PiwikTracker × Except PyErr String :=
  match t._get_request t.id_site rand with
  | .error e => (t, .error e)
  | .ok _url =>
    let _args := ecommerceArgs t grand_total sub_total tax shipping discount
    ({ t with ecommerce_items := [] }, .error dictPlusStrTypeError)

/-- `__get_url_track_ecommerce_order(order_id, ...)` (lines 857-901).
The `ec_id` append and the `ecommerce_last_order_timestamp` assignment
(lines 899-900) sit on the success path, which the inner builder never
reaches; the string append is modelled without percent-encoding. -/
def __get_url_track_ecommerce_order (t : PiwikTracker) (order_id : String)
    (grand_total sub_total tax shipping discount : Rat) (rand : Nat) :
    PiwikTracker × Except PyErr String :=
  match t.__get_url_track_ecommerce grand_total sub_total tax shipping
      discount rand with
  | (t1, .error e) => (t1, .error e)
  | (t1, .ok url) => (t1, .ok (url ++ "&ec_id=" ++ order_id))

/-- `__get_url_track_ecommerce_cart_update(grand_total)` (lines 953-964);
the omitted amounts default to `False`, i.e. falsy `0`. -/
def __get_url_track_ecommerce_cart_update (t : PiwikTracker)
    (grand_total : Rat) (rand : Nat) : PiwikTracker × Except PyErr String :=
  t.__get_url_track_ecommerce grand_total 0 0 0 0 rand

/-- `do_track_ecommerce_order(order_id, ...)` (lines 1023-1067). -/
def do_track_ecommerce_order (t : PiwikTracker) (order_id : String)
    (grand_total sub_total tax shipping discount : Rat) (rand : Nat)
    (transport : TransportFn) : PiwikTracker × Except PyErr SendResult :=
  match t.__get_url_track_ecommerce_order order_id grand_total sub_total tax
      shipping discount rand with
  | (t1, .error e) => (t1, .error e)
  | (t1, .ok url) => (t1, t1._send_request (.str url) transport)

/-- `do_track_ecommerce_cart_update(grand_total)` (lines 1005-1021). -/
def do_track_ecommerce_cart_update (t : PiwikTracker) (grand_total : Rat)
    (rand : Nat) (transport : TransportFn) :
    PiwikTracker × Except PyErr SendResult :=
  match t.__get_url_track_ecommerce_cart_update grand_total rand with
  | (t1, .error e) => (t1, .error e)
  | (t1, .ok url) => (t1, t1._send_request (.str url) transport)

end PiwikTracker

/-- One call to any state-mutating public method of the tracker OTHER
than `set_url_referer`, with its arguments (and, for
`set_new_visitor_id`, the md5 digest oracle) as payload.  `applyCalls`
below closes the constructor under arbitrary sequences of such calls;
methods that raise leave the state as the method left it. -/
inductive SetterCall where
  | localTime (d : TimeOfDay)
  | tokenAuth (s : String)
  | apiUrl (s : String)
  | ipAddr (s : String)
  | browserHasCookies
  | browserLanguage (s : String)
  | userAgent (s : String)
  | resolution (w h : Int)
  | newVisitorId (randomHex : String)
  | visitorId (v : String)
  | userId (u : UserIdV)
  | sendImageResponse (b : Bool)
  | debugFlag (b : Bool)
  | url (u : String)
  | forceVisitDateTime (d : Int)
  | requestCookie (c : List (String × String))
  | cookieSupportOff
  | actionName (a : String)
  | eventTracking (c a n v : String)
  | sslVerify (b : Bool)
  | customVariable (id : Int) (nm value scope : String)
  | dimension (nm value : String)
  | plugins (kwargs : List (String × Int))
  | trackGoal (idGoal : Int) (rev : Option Rat)
  | ecommerceView (sku nm : Option String)
      (cat : Option PiwikTracker.EcCategory) (price : Option Rat)
  | ecommerceItem (sku : String) (nm cat : Option String)
      (price : Option Rat) (qty : Int)

/-- Run one setter call on the state.  For the fallible setters the state
is the one left behind by the call (unchanged when they raise before
mutating; for `set_plugins` the partially-mutated state). -/
def applySetter (c : SetterCall) (t : PiwikTracker) : PiwikTracker :=
  match c with
  | .localTime d => t.set_local_time d
  | .tokenAuth s => t.set_token_auth s
  | .apiUrl s => t.set_api_url s
  | .ipAddr s => t.set_ip s
  | .browserHasCookies => t.set_browser_has_cookies
  | .browserLanguage s => t.set_browser_language s
  | .userAgent s => t.set_user_agent s
  | .resolution w h => t.set_resolution w h
  | .newVisitorId hex => t.set_new_visitor_id hex
  | .visitorId v =>
    match t.set_visitor_id v with
    | .ok t1 => t1
    | .error _ => t
  | .userId u => t.set_user_id u
  | .sendImageResponse b => t.set_send_image_response b
  | .debugFlag b => t.set_debug b
  | .url u => t.set_url u
  | .forceVisitDateTime d => t.set_force_visit_date_time d
  | .requestCookie c => t.set_request_cookie c
  | .cookieSupportOff => t.disable_cookie_support
  | .actionName a => t.set_action_name a
  | .eventTracking c a n v => t.set_event_tracking c a n v
  | .sslVerify b => t.set_ssl_verify b
  | .customVariable id nm value scope =>
    match t.set_custom_variable id nm value scope with
    | .ok t1 => t1
    | .error _ => t
  | .dimension nm value => t.set_dimension nm value
  | .plugins kwargs => (t.set_plugins kwargs).1
  | .trackGoal idGoal rev => t.set_track_goal idGoal rev
  | .ecommerceView sku nm cat price => t.set_ecommerce_view sku nm cat price
  | .ecommerceItem sku nm cat price qty =>
    t.add_ecommerce_item sku nm cat price qty

/-- Run a sequence of setter calls, first to last. -/
def applyCalls (cs : List SetterCall) (t : PiwikTracker) : PiwikTracker :=
  cs.foldl (fun t c => applySetter c t) t

/-! ## Helper lemmas about the dict model -/

/-- Lookup after Python dict assignment: the assigned key reads back the
new value, every other key is untouched. -/
theorem pyDictGet_pyDictSet {α β : Type} [DecidableEq α]
    (d : List (α × β)) (k j : α) (v : β) :
    pyDictGet (pyDictSet d k v) j =
      if k = j then some v else pyDictGet d j := by
  induction d with
  | nil => simp [pyDictSet, pyDictGet]
  | cons p rest ih =>
    by_cases hk : p.1 = k
    · by_cases hj : k = j
      · subst hj; simp [pyDictSet, pyDictGet, hk]
      · simp [pyDictSet, pyDictGet, hk, hj, fun h : p.1 = j => hj (hk ▸ h)]
    · by_cases hj : p.1 = j
      · have hjk : ¬j = k := fun h => hk (hj.trans h)
        have hkj : ¬k = j := fun h => hjk h.symm
        simp [pyDictSet, pyDictGet, hk, hj, hjk, hkj]
      · simp [pyDictSet, pyDictGet, hk, hj, ih]

/-- Python dict assignment never yields an empty dict. -/
theorem pyDictSet_length_pos {α β : Type} [DecidableEq α]
    (d : List (α × β)) (k : α) (v : β) :
    0 < (pyDictSet d k v).length := by
  cases d with
  | nil => simp [pyDictSet]
  | cons p rest =>
    simp only [pyDictSet]
    split <;> simp

/-! ## Setter calls never create the `referer` attribute -/

theorem setPluginsLoop_referer (kwargs : List (String × Int))
    (t : PiwikTracker) :
    (PiwikTracker.setPluginsLoop t kwargs).1.referer = t.referer := by
  induction kwargs generalizing t with
  | nil => rfl
  | cons pv rest ih =>
    obtain ⟨p, v⟩ := pv
    simp only [PiwikTracker.setPluginsLoop]
    cases h : pyDictGet KNOWN_PLUGINS p <;> simp [h, ih]

theorem applySetter_referer (c : SetterCall) (t : PiwikTracker) :
    (applySetter c t).referer = t.referer := by
  cases c
  case visitorId v =>
    by_cases h : v.length ≠ LENGTH_VISITOR_ID <;>
      simp [applySetter, PiwikTracker.set_visitor_id, h]
  case customVariable id nm value scope =>
    by_cases h : scope = "page" <;>
      simp [applySetter, PiwikTracker.set_custom_variable, h]
  case plugins kwargs =>
    simp [applySetter, PiwikTracker.set_plugins, setPluginsLoop_referer]
  case trackGoal idGoal rev =>
    cases rev <;> rfl
  case ecommerceView sku nm cat price =>
    simp only [applySetter, PiwikTracker.set_ecommerce_view]
    repeat' split
    all_goals rfl
  all_goals rfl

theorem applyCalls_referer (cs : List SetterCall) (t : PiwikTracker) :
    (applyCalls cs t).referer = t.referer := by
  induction cs generalizing t with
  | nil => rfl
  | cons c rest ih =>
    simp only [applyCalls, List.foldl_cons]
    rw [show (List.foldl (fun t c => applySetter c t) (applySetter c t) rest)
          = applyCalls rest (applySetter c t) from rfl, ih,
        applySetter_referer]

/-! ## Claim theorems -/

/-- C6: the constructor never initializes the `referer` attribute (it is
assigned only by `set_url_referer`) while `_get_request` unconditionally
reads it; hence on every tracker reachable from the constructor by any
sequence of setter calls other than `set_url_referer`, every
serialization — and therefore every tracking operation — fails with an
attribute error. -/
theorem C6_missing_referer_breaks_serialization :
    (∀ id_site : Int, (PiwikTracker.init id_site).referer = none) ∧
    (∀ (cs : List SetterCall) (id_site : Int),
        (applyCalls cs (PiwikTracker.init id_site)).referer = none) ∧
    (∀ (t : PiwikTracker) (i : Int) (rand : Nat), t.referer = none →
        t._get_request i rand = .error (.attributeError "referer")) ∧
    (∀ (t : PiwikTracker) (rand : Nat) (f : TransportFn)
        (au s oid : String) (sc : Option String) (scnt : Option Int)
        (gt st tax sh disc : Rat), t.referer = none →
        t.execute rand f = .error (.attributeError "referer") ∧
        t.do_track_action au "download" rand f
          = .error (.attributeError "referer") ∧
        t.do_track_action au "link" rand f
          = .error (.attributeError "referer") ∧
        t.do_track_site_search s sc scnt rand f
          = .error (.attributeError "referer") ∧
        t.do_track_ecommerce_order oid gt st tax sh disc rand f
          = (t, .error (.attributeError "referer")) ∧
        t.do_track_ecommerce_cart_update gt rand f
          = (t, .error (.attributeError "referer"))) := by
  refine ⟨fun _ => rfl, fun cs i => (applyCalls_referer cs _).trans rfl,
    fun t i rand h => by simp [PiwikTracker._get_request, h],
    fun t rand f au s oid sc scnt gt st tax sh disc h => ?_⟩
  refine ⟨?_, ?_, ?_, ?_, ?_, ?_⟩ <;>
    simp [PiwikTracker.execute, PiwikTracker.do_track_action,
      PiwikTracker.do_track_site_search, PiwikTracker.do_track_ecommerce_order,
      PiwikTracker.do_track_ecommerce_cart_update,
      PiwikTracker.__get_url_track_action,
      PiwikTracker.__get_url_track_site_search,
      PiwikTracker.__get_url_track_ecommerce_order,
      PiwikTracker.__get_url_track_ecommerce_cart_update,
      PiwikTracker.__get_url_track_ecommerce,
      PiwikTracker._get_request, h]

/-- Witness for C6 at concrete inputs: a tracker built by `__init__`
followed by `set_url` and `set_visitor_id` (but never `set_url_referer`)
fails to serialize, and a freshly constructed tracker fails to
`execute`, both with the `referer` attribute error. -/
theorem C6_missing_referer_breaks_serialization_witness :
    ((applyCalls [SetterCall.url "http://example.com",
        SetterCall.visitorId "0123456789abcdef"]
        (PiwikTracker.init 1))._get_request 1 7
      = .error (.attributeError "referer")) ∧
    ((PiwikTracker.init 1).execute 3
        (fun _ => { status := 200, content := "", text := "" })
      = .error (.attributeError "referer")) :=
  ⟨C6_missing_referer_breaks_serialization.2.2.1 _ 1 7 (by rfl),
   (C6_missing_referer_breaks_serialization.2.2.2 _ 3 _ "" "" "" none none
      0 0 0 0 0 (by rfl)).1⟩

/-- C1 counterexample: on a tracker constructed with site id 1 on which
only the page URL has been set (no other setter called), serialization
does not produce the claimed mapping at all — `_get_request` raises
`AttributeError` on the uninitialized `referer` attribute. -/
theorem C1_counterexample :
    ((PiwikTracker.init 1).set_url "http://example.com")._get_request 1 0
      = .error (.attributeError "referer") := by rfl

/-- C1 amended: once the `referer` attribute additionally exists with
value `None` (the minimal repair, via `set_url_referer(None)`), the
serialized base mapping for site id 1 and URL `"http://example.com"`
contains exactly the keys `idsite`, `rec`, `url`, `apiv`, `rand` and
`send_image` — the code emits `send_image="0"` unconditionally because
the flag defaults to `False`, which is not `None` — with `idsite=1`,
`rec="1"`, the URL unchanged, `apiv=1`, the drawn `rand` (one fresh draw
in `[0, 99999]` per call), and `send_image="0"`. -/
theorem C1_amended_base_parameters (rand : Nat) (_hr : rand ≤ 99999) :
    (((PiwikTracker.init 1).set_url "http://example.com").set_url_referer
        none)._get_request 1 rand
      = .ok [("idsite", QVal.i 1), ("rec", QVal.s "1"),
             ("url", QVal.s "http://example.com"), ("apiv", QVal.i 1),
             ("rand", QVal.i rand), ("send_image", QVal.s "0")] := by rfl

/-- Witness for C1 amended at `rand = 42`. -/
theorem C1_amended_base_parameters_witness :
    (((PiwikTracker.init 1).set_url "http://example.com").set_url_referer
        none)._get_request 1 42
      = .ok [("idsite", QVal.i 1), ("rec", QVal.s "1"),
             ("url", QVal.s "http://example.com"), ("apiv", QVal.i 1),
             ("rand", QVal.i 42), ("send_image", QVal.s "0")] :=
  C1_amended_base_parameters 42 (by decide)

/-- C2 counterexample: after `__init__(1)` and one `add_ecommerce_item`
(no `set_url_referer`), `do_track_ecommerce_order` does not empty the
item collection and produces no parameter set: `_get_request` raises
`AttributeError` before the clearing on line 949 is reached, and the
items survive. -/
theorem C2_counterexample :
    (((PiwikTracker.init 1).add_ecommerce_item "SKU1" (some "Widget")
        (some "Widgets") (some 80) 1).do_track_ecommerce_order "ORDER1"
        100 80 0 0 0 3 (fun _ => { status := 200, content := "", text := "" })
      = ((PiwikTracker.init 1).add_ecommerce_item "SKU1" (some "Widget")
           (some "Widgets") (some 80) 1,
         .error (.attributeError "referer"))) ∧
    ((PiwikTracker.init 1).add_ecommerce_item "SKU1" (some "Widget")
        (some "Widgets") (some 80) 1).ecommerce_items ≠ [] :=
  ⟨by rfl, by decide⟩

/-- C2 amended: on any tracker whose `referer` attribute exists (the
state the claim presupposes, reachable via `set_url_referer`), building
an e-commerce order does empty the item collection — but as a side
effect that happens just before the builder itself fails with the
dict-plus-str `TypeError`, so no request is sent; the `args` parameter
set of the first build contains `ec_items` (the SKU-stripped item
values) and the one computed after the build, without re-adding items,
omits `ec_items`. -/
theorem C2_amended_items_cleared (t : PiwikTracker) (r : Option String)
    (sku : String) (nm cat : Option String) (price : Option Rat) (qty : Int)
    (oid : String) (gt st tax sh disc gt2 st2 tax2 sh2 disc2 : Rat)
    (rand : Nat) (f : TransportFn) :
    ((((t.set_url_referer r).add_ecommerce_item sku nm cat price
        qty).do_track_ecommerce_order oid gt st tax sh disc rand
        f).1.ecommerce_items = []) ∧
    ((((t.set_url_referer r).add_ecommerce_item sku nm cat price
        qty).do_track_ecommerce_order oid gt st tax sh disc rand f).2
      = .error PiwikTracker.dictPlusStrTypeError) ∧
    (pyDictGet (((t.set_url_referer r).add_ecommerce_item sku nm cat price
        qty).ecommerceArgs gt st tax sh disc) "ec_items"
      = some (QVal.jsonItems
          (((t.set_url_referer r).add_ecommerce_item sku nm cat price
            qty).ecommerce_items.map Prod.snd))) ∧
    (pyDictGet (((((t.set_url_referer r).add_ecommerce_item sku nm cat price
        qty).do_track_ecommerce_order oid gt st tax sh disc rand
        f).1).ecommerceArgs gt2 st2 tax2 sh2 disc2) "ec_items" = none) := by
  have hmain : (((t.set_url_referer r).add_ecommerce_item sku nm cat price
      qty).do_track_ecommerce_order oid gt st tax sh disc rand f)
      = ({ (t.set_url_referer r).add_ecommerce_item sku nm cat price qty with
           ecommerce_items := [] },
         .error PiwikTracker.dictPlusStrTypeError) := rfl
  have hlen : 0 < ((t.set_url_referer r).add_ecommerce_item sku nm cat price
      qty).ecommerce_items.length :=
    pyDictSet_length_pos _ _ _
  refine ⟨by rw [hmain], by rw [hmain], ?_, ?_⟩
  · simp only [PiwikTracker.ecommerceArgs]
    rw [if_pos hlen, pyDictGet_pyDictSet, if_pos rfl]
  · rw [hmain]
    simp only [PiwikTracker.ecommerceArgs]
    rw [if_neg (by simp)]
    split_ifs <;> simp [pyDictGet_pyDictSet, pyDictGet]

/-- C3: `set_custom_variable` evaluates the undefined name `scopr` on
every path other than `scope="page"` (source line 786), so the valid
scopes `"visit"` and `"event"` crash with `NameError` instead of storing
the pair, and an invalid scope crashes with `NameError` instead of
raising the invalid-parameter error; only the `"page"` scope stores the
pair at the slot, which serialization then emits under `cvar`. -/
theorem C3_scopr_name_error :
    ((PiwikTracker.init 1).set_custom_variable 1 "n" "v" "visit"
      = .error (.nameError "name scopr is not defined")) ∧
    ((PiwikTracker.init 1).set_custom_variable 1 "n" "v" "event"
      = .error (.nameError "name scopr is not defined")) ∧
    ((PiwikTracker.init 1).set_custom_variable 1 "n" "v" "bogus"
      = .error (.nameError "name scopr is not defined")) ∧
    ((PiwikTracker.init 1).set_custom_variable 1 "n" "v" "page"
      = .ok { PiwikTracker.init 1 with
              page_custom_var := [(1, ("n", CVal.s "v"))] }) ∧
    ((((PiwikTracker.init 1).set_url_referer none).set_custom_variable
          1 "n" "v" "page").map
        (fun t1 => (t1._get_request 1 0).map (fun m => pyDictGet m "cvar"))
      = .ok (.ok (some (QVal.jsonCVar [(1, ("n", CVal.s "v"))])))) := by
  refine ⟨by rfl, by rfl, by rfl, by rfl, by rfl⟩

/-- C4 counterexample: `set_visitor_id` accepts the 16-character id
`"0123456789abcdef"` on a fresh tracker, but the subsequent
serialization emits nothing at all — it raises `AttributeError` on the
uninitialized `referer` attribute — so the id does not round-trip under
`cid`/`_id` as claimed. -/
theorem C4_counterexample :
    ((PiwikTracker.init 1).set_visitor_id "0123456789abcdef").map
        (fun t1 => t1._get_request 1 0)
      = .ok (.error (.attributeError "referer")) := by rfl

/-- C4 amended: `set_visitor_id(v)` raises the invalid-parameter error
for every `v` whose length differs from 16 and succeeds (storing `v`)
for every 16-character `v`; and on a tracker whose `referer` attribute
has additionally been initialized (`set_url_referer(None)`),
serialization emits `v` unchanged under both the `cid` and `_id` keys. -/
theorem C4_amended_visitor_id :
    (∀ (t : PiwikTracker) (v : String), v.length ≠ 16 →
      t.set_visitor_id v = .error (.invalidParameter
        "set_visitor_id() expects a visitor ID of length 16")) ∧
    (∀ (t : PiwikTracker) (v : String), v.length = 16 →
      t.set_visitor_id v = .ok { t with visitor_id := some v }) ∧
    (∀ (i : Int) (v : String) (rand : Nat), v.length = 16 →
      (((PiwikTracker.init i).set_url_referer none).set_visitor_id v).map
          (fun t1 => (t1._get_request i rand).map
            (fun m => (pyDictGet m "cid", pyDictGet m "_id")))
        = .ok (.ok (some (QVal.s v), some (QVal.s v)))) := by
  refine ⟨fun t v h => ?_, fun t v h => ?_, fun i v rand h => ?_⟩
  · simp [PiwikTracker.set_visitor_id, LENGTH_VISITOR_ID, h]
  · simp [PiwikTracker.set_visitor_id, LENGTH_VISITOR_ID, h]
  · simp only [PiwikTracker.set_visitor_id, LENGTH_VISITOR_ID]
    rw [if_neg (by simp [h])]
    rfl

/-- Witness for C4 amended at concrete inputs. -/
theorem C4_amended_visitor_id_witness :
    ((PiwikTracker.init 2).set_visitor_id "ab"
      = .error (.invalidParameter
          "set_visitor_id() expects a visitor ID of length 16")) ∧
    ((PiwikTracker.init 2).set_visitor_id "0123456789abcdef"
      = .ok { PiwikTracker.init 2 with
              visitor_id := some "0123456789abcdef" }) ∧
    ((((PiwikTracker.init 2).set_url_referer none).set_visitor_id
          "0123456789abcdef").map
        (fun t1 => (t1._get_request 2 7).map
          (fun m => (pyDictGet m "cid", pyDictGet m "_id")))
      = .ok (.ok (some (QVal.s "0123456789abcdef"),
                  some (QVal.s "0123456789abcdef")))) :=
  ⟨C4_amended_visitor_id.1 _ "ab" (by decide),
   C4_amended_visitor_id.2.1 _ "0123456789abcdef" (by decide),
   C4_amended_visitor_id.2.2 2 "0123456789abcdef" 7 (by decide)⟩

/-- C5 counterexample: the per-action operations do not fail with a type
error on EVERY tracker state — on a freshly constructed tracker the
uninitialized `referer` attribute makes serialization raise
`AttributeError` first, so `do_track_site_search` fails with an
attribute error, not the dict-plus-str `TypeError`. -/
theorem C5_counterexample :
    ((PiwikTracker.init 1).do_track_site_search "q" none none 0
        (fun _ => { status := 200, content := "", text := "" })
      = .error (.attributeError "referer")) ∧
    ((.error (.attributeError "referer") : Except PyErr SendResult)
      ≠ .error PiwikTracker.dictPlusStrTypeError) :=
  ⟨by rfl, by simp [PiwikTracker.dictPlusStrTypeError]⟩

/-- C5 amended: on every tracker state whose base serialization succeeds
(`referer` attribute initialized), each per-action tracking operation —
`do_track_action` (with either valid action type), `do_track_site_search`,
`do_track_ecommerce_order`, `do_track_ecommerce_cart_update` — fails with
the dict-plus-str `TypeError` before reaching the transport collaborator
(the result does not depend on `f`), while `execute()` hands exactly the
serialized parameter dict to the transport and returns its classified
response. -/
theorem C5_amended_type_error_before_transport (t : PiwikTracker)
    (r : Option String) (u action_url search oid : String)
    (sc : Option String) (scnt : Option Int) (gt st tax sh disc : Rat)
    (rand : Nat) (f : TransportFn) :
    ((t.set_url_referer r).do_track_action action_url "download" rand f
      = .error PiwikTracker.dictPlusStrTypeError) ∧
    ((t.set_url_referer r).do_track_action action_url "link" rand f
      = .error PiwikTracker.dictPlusStrTypeError) ∧
    ((t.set_url_referer r).do_track_site_search search sc scnt rand f
      = .error PiwikTracker.dictPlusStrTypeError) ∧
    (((t.set_url_referer r).do_track_ecommerce_order oid gt st tax sh disc
        rand f).2 = .error PiwikTracker.dictPlusStrTypeError) ∧
    (((t.set_url_referer r).do_track_ecommerce_cart_update gt rand f).2
      = .error PiwikTracker.dictPlusStrTypeError) ∧
    (((t.set_url_referer r).set_api_url u).execute rand f
      = .ok (classifyResponse (f
          { url := u,
            params := .dict
              (((t.set_url_referer r).set_api_url u)._get_request_body
                ((t.set_url_referer r).set_api_url u).id_site r rand),
            headers := ((t.set_url_referer r).set_api_url u).buildHeaders,
            cookies := ((t.set_url_referer r).set_api_url u).buildCookies,
            verify := ((t.set_url_referer r).set_api_url u).ssl_verify }))) := by
  refine ⟨?_, ?_, ?_, ?_, ?_, ?_⟩ <;> rfl

/-- C7 counterexample: `set_plugins(flash=1, bogus=2)` raises the
configuration error for the unknown name `bogus`, yet the plugin mapping
has already been mutated with the valid entry `fla=1` — the call is not
all-or-nothing. -/
theorem C7_counterexample :
    ((PiwikTracker.init 1).set_plugins [("flash", 1), ("bogus", 2)]
      = ({ PiwikTracker.init 1 with plugins := [("fla", 1)] },
         .error (.configurationError "Unknown plugin bogus"))) ∧
    (({ PiwikTracker.init 1 with plugins := [("fla", 1)] } :
        PiwikTracker).plugins ≠ (PiwikTracker.init 1).plugins) :=
  ⟨by rfl, by decide⟩

/-- C7 amended: `set_plugins` validates one keyword at a time, in
argument order; it records every whitelisted plugin preceding the first
unknown name into the plugin mapping and then raises the configuration
error naming that first unknown plugin (so the mapping is left unchanged
only when the unknown name comes first, and a call with only known names
records them all and succeeds). -/
theorem C7_amended_first_unknown (t : PiwikTracker)
    (kwargs : List (String × Int)) :
    t.set_plugins kwargs =
      ({ t with
         plugins :=
           (kwargs.takeWhile
               (fun pv => (pyDictGet KNOWN_PLUGINS pv.1).isSome)).foldl
             (fun d pv =>
               pyDictSet d ((pyDictGet KNOWN_PLUGINS pv.1).getD "") pv.2)
             t.plugins },
       match kwargs.dropWhile
           (fun pv => (pyDictGet KNOWN_PLUGINS pv.1).isSome) with
       | [] => .ok true
       | (p, _) :: _ =>
         .error (.configurationError ("Unknown plugin " ++ p))) := by
  induction kwargs generalizing t with
  | nil => rfl
  | cons pv rest ih =>
    obtain ⟨p, v⟩ := pv
    cases h : pyDictGet KNOWN_PLUGINS p with
    | none =>
      simp [PiwikTracker.set_plugins, PiwikTracker.setPluginsLoop, h,
        List.takeWhile_cons, List.dropWhile_cons]
    | some code =>
      have h2 := ih { t with plugins := pyDictSet t.plugins code v }
      simpa [PiwikTracker.set_plugins, PiwikTracker.setPluginsLoop, h,
        List.takeWhile_cons, List.dropWhile_cons] using h2

/-- C8: source line 421 guards the `e_cvar` entry with
`len(self.page_custom_var)` instead of the event mapping, so on a
serializable tracker (referer initialized) whose event-scope mapping is
non-empty and whose page-scope mapping is empty, `e_cvar` is absent —
and conversely, a non-empty page-scope mapping with an empty event-scope
mapping makes the code emit `e_cvar` as the JSON dump of the EMPTY event
mapping.  The claimed "present iff the event mapping is non-empty,
regardless of the page mapping" is exactly what the code does not do. -/
theorem C8_e_cvar_guard_tests_page_map :
    ((({ (PiwikTracker.init 1).set_url_referer none with
          event_custom_var := [(1, ("n", CVal.s "v"))] } :
         PiwikTracker)._get_request 1 0).map
        (fun m => pyDictGet m "e_cvar") = .ok none) ∧
    ((({ (PiwikTracker.init 1).set_url_referer none with
          page_custom_var := [(1, ("n", CVal.s "v"))] } :
         PiwikTracker)._get_request 1 0).map
        (fun m => pyDictGet m "e_cvar") = .ok (some (QVal.jsonCVar []))) :=
  ⟨by rfl, by rfl⟩

/-- C9: on a tracker with page URL and referer set but NO API URL, the
per-action operations never reach the `_send_request` configuration
check: they die earlier with the dict-plus-str `TypeError` (and the
results are independent of the transport `f`, so no network I/O happens);
only `execute()` raises the claimed synchronous configuration error
before any transport call. -/
theorem C9_do_track_type_error_preempts_configuration_error
    (f : TransportFn) (rand : Nat) :
    ((((PiwikTracker.init 1).set_url "http://example.com").set_url_referer
        none).api_url = none) ∧
    ((((PiwikTracker.init 1).set_url "http://example.com").set_url_referer
        none).do_track_site_search "q" none none rand f
      = .error PiwikTracker.dictPlusStrTypeError) ∧
    ((((PiwikTracker.init 1).set_url "http://example.com").set_url_referer
        none).do_track_action "http://example.com/f.zip" "download" rand f
      = .error PiwikTracker.dictPlusStrTypeError) ∧
    (((((PiwikTracker.init 1).set_url "http://example.com").set_url_referer
        none).do_track_ecommerce_order "OID" 100 0 0 0 0 rand f).2
      = .error PiwikTracker.dictPlusStrTypeError) ∧
    (((((PiwikTracker.init 1).set_url "http://example.com").set_url_referer
        none).do_track_ecommerce_cart_update 100 rand f).2
      = .error PiwikTracker.dictPlusStrTypeError) ∧
    ((((PiwikTracker.init 1).set_url "http://example.com").set_url_referer
        none).execute rand f
      = .error (.configurationError "API URL not set")) :=
  ⟨by rfl, by rfl, by rfl, by rfl, by rfl, by rfl⟩

/-- C10: once the API URL is set, `_send_request` performs the transport
call and returns its classified response as data, never raising: the
result classifies status 200 or 204 as `ok=true, error=false`, and every
other status as `ok=false, error=true` with the status code and the
response body passed through. -/
theorem C10_response_classification (t : PiwikTracker) (u : String)
    (params : ReqParams) (f : TransportFn) :
    ((t.set_api_url u)._send_request params f
      = .ok (classifyResponse (f
          { url := u, params := params,
            headers := (t.set_api_url u).buildHeaders,
            cookies := (t.set_api_url u).buildCookies,
            verify := (t.set_api_url u).ssl_verify }))) ∧
    (∀ r : HttpResponse,
      classifyResponse r
        = { body_bytes := r.content, body_str := r.text, status := r.status,
            ok := r.status == 200 || r.status == 204,
            error := !(r.status == 200 || r.status == 204) }) ∧
    (∀ r : HttpResponse, r.status = 200 ∨ r.status = 204 →
      (classifyResponse r).ok = true ∧ (classifyResponse r).error = false) ∧
    (∀ r : HttpResponse, r.status ≠ 200 → r.status ≠ 204 →
      (classifyResponse r).ok = false ∧ (classifyResponse r).error = true ∧
      (classifyResponse r).status = r.status ∧
      (classifyResponse r).body_str = r.text ∧
      (classifyResponse r).body_bytes = r.content) := by
  refine ⟨rfl, fun r => rfl, fun r h => ?_, fun r h200 h204 => ?_⟩
  · rcases h with h | h <;> simp [classifyResponse, h]
  · simp [classifyResponse, h200, h204]

/-- Witness for C10 at concrete inputs: a 500 response comes back as
data with `ok=false`/`error=true`, a 204 response as `ok=true`. -/
theorem C10_response_classification_witness :
    (((PiwikTracker.init 1).set_api_url
        "http://piwik.example/piwik.php")._send_request (.dict [])
        (fun _ => { status := 500, content := "err", text := "err" })
      = .ok { body_bytes := "err", body_str := "err", status := 500,
              ok := false, error := true }) ∧
    ((classifyResponse { status := 204, content := "", text := "" }).ok
      = true) ∧
    ((classifyResponse { status := 500, content := "", text := "" }).error
      = true) := by
  refine ⟨?_, ?_, ?_⟩
  · rw [(C10_response_classification (PiwikTracker.init 1)
      "http://piwik.example/piwik.php" (.dict [])
      (fun _ => { status := 500, content := "err", text := "err" })).1]
    rfl
  · exact ((C10_response_classification (PiwikTracker.init 1) "" (.dict [])
      (fun _ => { status := 500, content := "", text := "" })).2.2.1
      { status := 204, content := "", text := "" } (Or.inr rfl)).1
  · exact (((C10_response_classification (PiwikTracker.init 1) "" (.dict [])
      (fun _ => { status := 500, content := "", text := "" })).2.2.2
      { status := 500, content := "", text := "" } (by decide) (by decide))).2.1
